import Mathlib

/-!
# Verification of the MedLangGraphAgent pipeline (`src/medagent.py`)

Shallow embedding of the medical-image analysis workflow: the state-merge
policy of the LangGraph state machine, the seven stage functions, the
combined-response parser and the final-report compiler.

Modelling conventions:
* Python strings are Lean `String`s; `str.split(sep)` is `String.splitOn`
  (both split on leftmost non-overlapping occurrences), `str.strip()` is
  `String.trim`, `"pat" in s` is `pyContains s pat`, `str.lower()` /
  `str.upper()` are `String.toLower` / `String.toUpper`.
* Python `float` arithmetic is modelled as exact rational arithmetic (`ℚ`).
* External calls (the Gemini client) are modelled by passing the call's
  outcome as an explicit parameter; a raised exception is `Except.error`
  carrying `str(e)`.
* Wall-clock reads (`datetime.now()`) are modelled as explicit `String`
  parameters threaded to the functions that perform them.
-/

set_option maxRecDepth 100000

namespace MedAgent

/-- Split a character list on every leftmost non-overlapping occurrence of
`sep`, Python `str.split(sep)` style.  `fuel` (instantiated with the list
length) makes the recursion structural so the kernel can evaluate it;
`acc` holds the current piece reversed. -/
def splitFuel (sep : List Char) : ℕ → List Char → List Char → List (List Char)
  | _, [], acc => [acc.reverse]
  | 0, cs, acc => [acc.reverse ++ cs]
  | fuel + 1, c :: cs, acc =>
      if sep.isPrefixOf (c :: cs) then
        acc.reverse :: splitFuel sep fuel ((c :: cs).drop sep.length) []
      else splitFuel sep fuel cs (c :: acc)

/-- Python `s.split(sep)` for a non-empty separator: leftmost non-overlapping
occurrences, keeping empty pieces.  (For an empty separator we return `[s]`;
no caller passes one.) -/
def pySplit (s sep : String) : List String :=
  if sep.data.isEmpty then [s]
  else (splitFuel sep.data s.data.length s.data []).map String.mk

/-- Python substring test `pat in s` (for a non-empty pattern): `s` splits
into at least two pieces exactly when `pat` occurs in `s`. -/
def pyContains (s pat : String) : Bool :=
  (pySplit s pat).length != 1

/-- Join a list of strings with a separator (Python `sep.join(parts)`). -/
def joinWith (sep : String) : List String → String
  | [] => ""
  | [x] => x
  | x :: xs => x ++ sep ++ joinWith sep xs

/-- Python `s.strip()`: drop leading and trailing whitespace.  (Python also
strips `\v`/`\f`, which never occur in the texts involved.) -/
def pyTrim (s : String) : String :=
  String.mk
    (((s.data.dropWhile Char.isWhitespace).reverse.dropWhile
        Char.isWhitespace).reverse)

/-- Python `s.lower()` (ASCII, which covers every pattern matched on). -/
def pyLower (s : String) : String := String.mk (s.data.map Char.toLower)

/-- Python `s.upper()` (ASCII). -/
def pyUpper (s : String) : String := String.mk (s.data.map Char.toUpper)

/-- Python `s.replace(pat, repl)` for a non-empty pattern. -/
def pyReplace (s pat repl : String) : String :=
  joinWith repl (pySplit s pat)

/-- Python `line.split(':', 1)[1].strip()`: everything after the first colon,
stripped.  (Callers guard with `pyContains line ":"`.) -/
def afterColon (line : String) : String :=
  pyTrim (joinWith ":" ((pySplit line ":").drop 1))

/-- An in-progress medication dict from `_parse_medication_response`: once
created it always has a `name` key; the other four keys are optional. -/
structure PartialMed where
  name : String
  dosage : Option String := none
  duration : Option String := none
  type : Option String := none
  contraindications : Option String := none
deriving DecidableEq, Repr

/-- A finished medication record: after the `setdefault` pass of
`_parse_medication_response` every kept record has all five keys. -/
structure Medication where
  name : String
  dosage : String
  duration : String
  type : String
  contraindications : String
deriving DecidableEq, Repr

/-- One iteration of the line loop of `_parse_medication_response`
(src/medagent.py lines 517-547).  The accumulator is the `medications` list
built so far together with `current_med` (`none` models the empty dict). -/
def scanStep (acc : List PartialMed × Option PartialMed) (rawLine : String) :
    List PartialMed × Option PartialMed :=
  let line := pyTrim rawLine
  if line = "" then
    match acc.2 with
    | some m => (acc.1 ++ [m], none)
    | none => acc
  else if pyContains line ":" then
    let lower := pyLower line
    if pyContains lower "name:" then
      let flushed := match acc.2 with
        | some m => acc.1 ++ [m]
        | none => acc.1
      (flushed, some { name := afterColon line })
    else if pyContains lower "dosage:" || pyContains lower "dose:" then
      (acc.1, acc.2.map fun m => { m with dosage := some (afterColon line) })
    else if pyContains lower "duration:" then
      (acc.1, acc.2.map fun m => { m with duration := some (afterColon line) })
    else if pyContains lower "type:" || pyContains lower "class:" then
      (acc.1, acc.2.map fun m => { m with type := some (afterColon line) })
    else if pyContains lower "contraindication" || pyContains lower "warning" then
      (acc.1, acc.2.map fun m => { m with contraindications := some (afterColon line) })
    else acc
  else acc

/-- The full line scan of `_parse_medication_response`: split on newlines,
run the loop, and append the trailing `current_med` if one is open
(src/medagent.py lines 514-551). -/
def scanMedLines (resp : String) : List PartialMed :=
  let r := (pySplit resp "\n").foldl scanStep ([], none)
  match r.2 with
  | some m => r.1 ++ [m]
  | none => r.1

/-- The "usable name" test of `_parse_medication_response`: the name is truthy
and its lowercase form is not `n/a` or `none` (src/medagent.py lines 555, 563). -/
def usableName (n : String) : Bool :=
  n != "" && pyLower n != "n/a" && pyLower n != "none"

/-- The `setdefault` pass of `_parse_medication_response` (lines 557-560):
fill each missing optional field with its fixed default string. -/
def fillDefaults (m : PartialMed) : Medication :=
  { name := m.name,
    dosage := m.dosage.getD "As prescribed by physician",
    duration := m.duration.getD "As directed",
    type := m.type.getD "Medication",
    contraindications := m.contraindications.getD "Consult healthcare provider" }

/-- `_parse_medication_response` (src/medagent.py lines 500-571).  The source
runs `setdefault` in place on records with a usable name and then filters on
the same usable-name test; records failing the test are skipped by both
passes, so this equals filtering first and then filling defaults.  The
function is total (its `except` arm is unreachable: every operation in the
body is a total string/list operation). -/
def parseMedicationResponse (resp : String) : List Medication :=
  ((scanMedLines resp).filter fun m => usableName m.name).map fillDefaults

/-- The fallback record substituted by `_parse_combined_medications`
(src/medagent.py lines 728-734). -/
def parseFallbackMed : Medication :=
  { name := "Consult Healthcare Provider",
    dosage := "As prescribed",
    duration := "As directed",
    type := "Professional Consultation",
    contraindications := "Consult with qualified healthcare provider" }

/-- Section slicing of `_parse_combined_medications` (lines 717-721): the text
between the first `=== MEDICATIONS ===` marker and the next `=== CARE PLAN ===`
marker, or the whole response when the medications marker is absent. -/
def medicationsSection (resp : String) : String :=
  if pyContains resp "=== MEDICATIONS ===" then
    (((pySplit ((pySplit resp "=== MEDICATIONS ===").getD 1 "")
        "=== CARE PLAN ===").headD ""))
  else resp

/-- `_parse_combined_medications` (src/medagent.py lines 711-747): parse the
medications section and substitute the single fallback record when the parse
yields no records (`if not medications`). -/
def parseCombinedMedications (resp : String) : List Medication :=
  if parseMedicationResponse (medicationsSection resp) = [] then [parseFallbackMed]
  else parseMedicationResponse (medicationsSection resp)

/-- `_extract_care_plan_section` (src/medagent.py lines 749-759). -/
def extractCarePlanSection (resp : String) : String :=
  if pyContains resp "=== CARE PLAN ===" then
    let sec := pyTrim ((pySplit ((pySplit resp "=== CARE PLAN ===").getD 1 "")
        "=== DOCTOR SUMMARY ===").headD "")
    "## 📋 TWO-WEEK CARE PLAN\n\n" ++ sec
  else
    "Please consult with your healthcare provider for a personalized care plan."

/-- `_extract_doctor_summary_section` (src/medagent.py lines 761-796); `ts` is
the `datetime.now().strftime('%Y-%m-%d %H:%M:%S')` read at the top of the
function. -/
def extractDoctorSummarySection (ts resp : String) : String :=
  if pyContains resp "=== DOCTOR SUMMARY ===" then
    let sec := pyTrim ((pySplit resp "=== DOCTOR SUMMARY ===").getD 1 "")
    "# 🩺 CLINICAL SUMMARY FOR HEALTHCARE PROVIDERS\n\n**Generated:** " ++ ts ++
      "  \n**System:** Med-ARPR AI Clinical Decision Support v2.0\n\n---\n\n" ++
      sec ++
      "\n\n---\n\n## ⚠️ IMPORTANT CLINICAL NOTES\n\n**AI-Generated Clinical Decision Support:**\n" ++
      "- This summary supports clinical decision-making but should be validated\n" ++
      "- Final diagnosis and treatment decisions remain the responsibility of the treating physician\n" ++
      "- Adjust recommendations based on patient-specific factors\n\n" ++
      "**Generated by:** Med-ARPR AI Clinical Decision Support System | **Timestamp:** " ++
      ts ++ "\n\n---\n"
  else
    "Medical analysis completed. Please review full report for details."

/-- `GoogleGeminiModel._simulate_initial_analysis` (src/medagent.py lines 242-260). -/
def simulateInitialAnalysis : String :=
  "Based on the medical image analysis:\n\n**Image Quality**: Good quality with adequate contrast and positioning.\n\n**Anatomical Observations**:\n- Visible lung fields show areas of opacity in the right lower lobe\n- Heart size appears within normal limits\n- Costophrenic angles are clear\n- No obvious pneumothorax or pleural effusion\n- Mediastinal contours are normal\n\n**Notable Findings**:\n- Patchy infiltrates observed in the right lower lung field\n- Increased density suggesting possible consolidation\n- Air bronchogram pattern visible\n\n**Technical Assessment**: Image is adequate for diagnostic interpretation."

/-- `GoogleGeminiModel._simulate_disease_identification` (lines 262-268). -/
def simulateDiseaseIdentification : String :=
  "**Note**: This is a simulated response. The actual AI model is not available.\n\n**Recommendation**: Please ensure your Google Gemini API key is properly configured.\n\nFor accurate disease identification, the system requires a valid API connection to analyze the medical image."

/-- `GoogleGeminiModel._simulate_root_cause` (lines 270-274). -/
def simulateRootCause : String :=
  "**Note**: This is a simulated response. The actual AI model is not available.\n\n**Recommendation**: Please ensure your Google Gemini API key is properly configured to receive accurate root cause analysis based on the detected disease."

/-- `GoogleGeminiModel._simulate_medication_recommendation` (lines 276-292). -/
def simulateMedicationRecommendation : String :=
  "**Evidence-Based Medication Recommendations**:\n\nThe following medications are recommended based on current clinical guidelines for community-acquired pneumonia:\n\n1. **First-line Antibiotic Therapy**\n2. **Symptomatic Relief**\n3. **Supportive Care**\n\nNote: All recommendations should be adjusted based on:\n- Patient allergies and contraindications\n- Renal and hepatic function\n- Drug interactions with current medications\n- Local antibiotic resistance patterns\n\n**Important**: These are general recommendations. Actual prescriptions must be written by a licensed healthcare provider after complete patient evaluation."

/-- `GoogleGeminiModel._simulate_care_plan` (lines 294-306). -/
def simulateCarePlan : String :=
  "**Comprehensive Care Plan Overview**:\n\nThis plan provides a structured approach to recovery over the next two weeks, focusing on medication adherence, symptom monitoring, and lifestyle modifications to support healing.\n\n**Key Components**:\n1. Medication schedule with timing\n2. Daily monitoring parameters\n3. Activity modifications\n4. Nutrition and hydration guidelines\n5. Follow-up checkpoints\n6. Warning signs requiring immediate attention"

/-- `GoogleGeminiModel._get_simulated_response` (src/medagent.py lines 227-240):
select a canned text by keyword-sniffing the lowercased prompt. -/
def getSimulatedResponse (prompt : String) : String :=
  if pyContains (pyLower prompt) "initial" || pyContains (pyLower prompt) "analyze" then
    simulateInitialAnalysis
  else if pyContains (pyLower prompt) "disease" ||
      pyContains (pyLower prompt) "condition" then
    simulateDiseaseIdentification
  else if pyContains (pyLower prompt) "root cause" ||
      pyContains (pyLower prompt) "etiology" then
    simulateRootCause
  else if pyContains (pyLower prompt) "medication" ||
      pyContains (pyLower prompt) "treatment" then
    simulateMedicationRecommendation
  else if pyContains (pyLower prompt) "care plan" ||
      pyContains (pyLower prompt) "management" then
    simulateCarePlan
  else "Analysis completed. Please consult with a healthcare professional."

/-- `GoogleGeminiModel.analyze_image` (src/medagent.py lines 145-192).
`sim` is `use_simulation` (no API key / init failure); `outcome` is the result
of `model.generate_content([medical_prompt, image])` followed by reading
`response.text`: `Except.error` models a raised exception, `Except.ok t`
a response whose text is `t` (`""` models a falsy/empty response text). -/
def analyzeImage (sim : Bool) (outcome : Except String String) (prompt : String) :
    String :=
  if sim then getSimulatedResponse prompt
  else
    match outcome with
    | .ok t => if t = "" then getSimulatedResponse prompt else t
    | .error _ => getSimulatedResponse prompt

/-- `GoogleGeminiModel.generate_text_response` (src/medagent.py lines 194-225),
with the same conventions as `analyzeImage`. -/
def generateTextResponse (sim : Bool) (outcome : Except String String)
    (_prompt : String) : String :=
  if sim then
    "Simulated medication recommendations - Please consult with a healthcare provider."
  else
    match outcome with
    | .ok t => if t = "" then "Unable to generate recommendations at this time." else t
    | .error _ => "Unable to generate recommendations due to API error."

/-- A PIL image handle as the pipeline observes it: a color mode (e.g. `"L"`,
`"P"`, `"RGBA"`, `"RGB"`) and pixel dimensions. -/
structure PILImage where
  mode : String
  width : ℕ
  height : ℕ
deriving DecidableEq, Repr

/-- Modelled from the spec: `PIL.Image.thumbnail`'s `round_aspect` helper
(the imaging library is an external collaborator, outside this repository).
`max (min ⌊q⌋ ⌈q⌉ (by key)) 1` with Python `min` keeping the first argument on
ties; float arithmetic modelled as exact rationals. -/
def roundAspect (q : ℚ) (key : ℤ → ℚ) : ℤ :=
  max (if key ⌊q⌋ ≤ key ⌈q⌉ then ⌊q⌋ else ⌈q⌉) 1

/-- Modelled from the spec: `PIL.Image.thumbnail((512, 512))` (external to the
repository; the spec describes it as "downscales in place so neither dimension
exceeds a fixed bound (512), preserving aspect ratio").  Faithful to the
library algorithm: return unchanged when both dimensions already fit;
otherwise shrink the longer side to 512 and round the other to best preserve
the aspect ratio (never below 1).  `none` models the `ZeroDivisionError`
Python raises when a zero-height image is scaled. -/
def thumbnail512 (img : PILImage) : Option PILImage :=
  if img.width ≤ 512 ∧ img.height ≤ 512 then some img
  else if img.height = 0 then none
  else
    let aspect : ℚ := (img.width : ℚ) / (img.height : ℚ)
    if (1 : ℚ) ≥ aspect then
      let w := roundAspect (512 * aspect) fun n => |aspect - (n : ℚ) / 512|
      some { img with width := w.toNat, height := 512 }
    else
      let h := roundAspect (512 / aspect)
        fun n => if n = 0 then 0 else |aspect - 512 / (n : ℚ)|
      some { img with width := 512, height := h.toNat }

/-- The workflow state (`MedicalAnalysisState`, src/medagent.py lines 49-76).
`NotRequired` fields are `Option`s (`none` = key absent); `image` is an
`Option PILImage` inside because the pipeline checks `image is None`;
messages are the message contents, confidence scores are label/value pairs
in insertion order. -/
structure MedState where
  image : Option PILImage := none
  imagePath : String := ""
  imageType : String := ""
  initialAnalysis : Option String := none
  comprehensiveAnalysis : Option String := none
  diseaseIdentification : Option String := none
  rootCauseAnalysis : Option String := none
  recommendedMedicines : Option (List Medication) := none
  twoWeekPlan : Option String := none
  finalReport : Option String := none
  doctorSummary : Option String := none
  analysisId : Option String := none
  timestamp : Option String := none
  confidenceScores : Option (List (String × ℚ)) := none
  messages : List String := []
  error : Option String := none
  status : Option String := none

/-- A stage's partial update: the dict a node returns.  `none` means the key
is absent from the update. -/
structure MedUpdate where
  image : Option PILImage := none
  imagePath : Option String := none
  imageType : Option String := none
  initialAnalysis : Option String := none
  comprehensiveAnalysis : Option String := none
  diseaseIdentification : Option String := none
  rootCauseAnalysis : Option String := none
  recommendedMedicines : Option (List Medication) := none
  twoWeekPlan : Option String := none
  finalReport : Option String := none
  doctorSummary : Option String := none
  analysisId : Option String := none
  timestamp : Option String := none
  confidenceScores : Option (List (String × ℚ)) := none
  error : Option String := none
  status : Option String := none
  messages : List String := []

/-- Modelled from the spec: the LangGraph channel merge for the
`MedicalAnalysisState` schema (the graph engine is library code outside this
repository; the schema is src/medagent.py lines 49-76).  Every field is
last-write-wins, except `messages`, whose `Annotated[..., operator.add]`
reducer concatenates the update onto the existing log. -/
def applyUpdate (s : MedState) (u : MedUpdate) : MedState :=
  { image := u.image <|> s.image,
    imagePath := u.imagePath.getD s.imagePath,
    imageType := u.imageType.getD s.imageType,
    initialAnalysis := u.initialAnalysis <|> s.initialAnalysis,
    comprehensiveAnalysis := u.comprehensiveAnalysis <|> s.comprehensiveAnalysis,
    diseaseIdentification := u.diseaseIdentification <|> s.diseaseIdentification,
    rootCauseAnalysis := u.rootCauseAnalysis <|> s.rootCauseAnalysis,
    recommendedMedicines := u.recommendedMedicines <|> s.recommendedMedicines,
    twoWeekPlan := u.twoWeekPlan <|> s.twoWeekPlan,
    finalReport := u.finalReport <|> s.finalReport,
    doctorSummary := u.doctorSummary <|> s.doctorSummary,
    analysisId := u.analysisId <|> s.analysisId,
    timestamp := u.timestamp <|> s.timestamp,
    confidenceScores := u.confidenceScores <|> s.confidenceScores,
    error := u.error <|> s.error,
    status := u.status <|> s.status,
    messages := s.messages ++ u.messages }

/-- Python `str.title()` for the confidence-score labels: uppercase a letter
that follows a non-letter, lowercase a letter that follows a letter. -/
def pyTitle (s : String) : String :=
  String.mk (s.data.foldl
    (fun (acc : List Char × Bool) c =>
      if c.isAlpha then
        (acc.1 ++ [if acc.2 then c.toLower else c.toUpper], true)
      else (acc.1 ++ [c], false))
    ([], false)).1

/-- Python `f"{q:.1f}"` for the non-negative confidence percentages, with
float arithmetic modelled as exact rationals: round to one decimal place and
print with one digit after the point. -/
def format1f (q : ℚ) : String :=
  let n : ℤ := round (q * 10)
  toString (n / 10) ++ "." ++ toString (n % 10).natAbs

/-- One confidence-score line of `_compile_final_report`
(src/medagent.py lines 916-918). -/
def confidenceLine (kv : String × ℚ) : String :=
  "- " ++ pyTitle (pyReplace kv.1 "_" " ") ++ ": " ++ format1f (kv.2 * 100) ++ "%\n"

/-- The confidence-score block: one line per entry, empty when the
`confidence_scores` key is absent. -/
def confidenceBlock (s : MedState) : String :=
  match s.confidenceScores with
  | some scores => String.join (scores.map confidenceLine)
  | none => ""

/-- One numbered medication rendering of `_compile_final_report`
(src/medagent.py lines 930-938). -/
def medicationBlock (i : ℕ) (m : Medication) : String :=
  "\n### " ++ toString i ++ ". " ++ m.name ++ "\n\n- **Type:** " ++ m.type ++
    "\n- **Dosage:** " ++ m.dosage ++ "\n- **Duration:** " ++ m.duration ++
    "\n- **Contraindications:** " ++ m.contraindications ++ "\n"

/-- The medications section of `_compile_final_report` (lines 927-940). -/
def medicationsBlock (s : MedState) : String :=
  match s.recommendedMedicines with
  | some meds => String.join (meds.enum.map fun p => medicationBlock (p.1 + 1) p.2)
  | none => "No medication recommendations available.\n"

/-- The fixed disclaimer block of `_compile_final_report` (lines 949-976). -/
def reportDisclaimer : String :=
  "\n\n---\n\n## ⚠️ IMPORTANT MEDICAL DISCLAIMER\n\n**THIS REPORT IS FOR INFORMATIONAL AND EDUCATIONAL PURPOSES ONLY**\n\nThis AI-generated analysis is intended to support healthcare decision-making but DOES NOT replace professional medical advice, diagnosis, or treatment. \n\n**Critical Points:**\n\n1. **Not a Substitute for Professional Care**: Always consult with a qualified healthcare provider for proper diagnosis and treatment.\n\n2. **AI Limitations**: This analysis is based on image interpretation by AI and may not capture all clinical nuances.\n\n3. **Clinical Correlation Required**: Diagnosis should incorporate patient history, physical examination, and laboratory findings.\n\n4. **Medication Guidance**: All medication recommendations must be reviewed and prescribed by a licensed healthcare provider.\n\n5. **Emergency Situations**: In case of medical emergency, immediately call emergency services (911) or go to the nearest emergency room.\n\n6. **No Patient-Doctor Relationship**: This report does not establish a patient-doctor relationship.\n\n7. **Privacy**: This report may contain sensitive medical information. Handle according to HIPAA guidelines.\n\n**For Questions or Concerns**: Contact your healthcare provider immediately.\n\n---\n\n"

/-- Everything `_compile_final_report` emits before the final wall-clock
timestamp: header, comprehensive analysis with fallbacks, confidence scores,
medications, two-week plan and disclaimer (src/medagent.py lines 891-977).
`nowIso` is the `datetime.now().isoformat()` fallback used when the
`timestamp` key is absent. -/
def reportStem (nowIso : String) (s : MedState) : String :=
  "\n# 🏥 MEDICAL IMAGE ANALYSIS REPORT\n\n**Report ID:** " ++
    s.analysisId.getD "N/A" ++ "  \n**Generated:** " ++ s.timestamp.getD nowIso ++
    "  \n**Image Type:** " ++ pyUpper s.imageType ++
    "  \n**Analysis System:** Med-ARPR AI Analysis System v2.0\n\n---\n\n## 1. COMPREHENSIVE MEDICAL ANALYSIS\n\n" ++
    (s.comprehensiveAnalysis.getD (s.initialAnalysis.getD "No analysis available")) ++
    "\n\n**Diagnostic Confidence Scores:**\n" ++ confidenceBlock s ++
    "\n---\n\n## 2. MEDICATION RECOMMENDATIONS\n\n" ++ medicationsBlock s ++
    "\n---\n\n## 3. TWO-WEEK CARE PLAN\n\n" ++
    (s.twoWeekPlan.getD "No care plan available") ++ reportDisclaimer ++
    "**Report End** | Generated by Med-ARPR AI System | "

/-- `_compile_final_report` (src/medagent.py lines 891-980).  `nowFmt` is the
`datetime.now().strftime('%Y-%m-%d %H:%M:%S')` the function reads for its
footer — the report text ends with that fresh wall-clock read. -/
def compileFinalReport (nowIso nowFmt : String) (s : MedState) : String :=
  reportStem nowIso s ++ (nowFmt ++ "\n")

/-- Node 1, `preprocess_image_node` (src/medagent.py lines 326-372): validate
the image, normalize to RGB, thumbnail to fit 512×512, stamp id/timestamp.
`analysisId` and `tsIso` are the two wall-clock-derived strings the node
generates.  The `thumbnail512 = none` arm is the node's `except` handler
catching the `ZeroDivisionError` (`str(e) = "division by zero"`). -/
def preprocessImageNode (analysisId tsIso : String) (s : MedState) : MedUpdate :=
  match s.image with
  | none =>
      { error := some "No image provided", status := some "failed",
        messages := ["Error: No image provided"] }
  | some img0 =>
      let img1 := if img0.mode ≠ "RGB" then { img0 with mode := "RGB" } else img0
      match thumbnail512 img1 with
      | none =>
          { error := some "division by zero", status := some "failed",
            messages := ["Error in preprocessing: division by zero"] }
      | some img2 =>
          { image := some img2, analysisId := some analysisId,
            timestamp := some tsIso, status := some "preprocessing_complete",
            messages := ["✓ Image preprocessed: " ++ s.imageType ++ " | Size: (" ++
              toString img2.width ++ ", " ++ toString img2.height ++ ")"] }

/-- Node 2, `initial_analysis_node` (src/medagent.py lines 374-413).
`analysisResult` is the string returned by `model.analyze_image`
(`analyzeImage` never raises: its API errors are caught internally). -/
def initialAnalysisNode (analysisResult : String) (_s : MedState) : MedUpdate :=
  { initialAnalysis := some analysisResult,
    comprehensiveAnalysis := some analysisResult,
    status := some "initial_analysis_complete",
    messages := ["✓ Comprehensive analysis completed"] }

/-- Node 3, `disease_identification_node` (src/medagent.py lines 415-457):
no model call; reuse the comprehensive text and attach the fixed
confidence map. -/
def diseaseIdentificationNode (s : MedState) : MedUpdate :=
  { diseaseIdentification :=
      some (s.comprehensiveAnalysis.getD (s.initialAnalysis.getD "")),
    confidenceScores := some
      [("primary_diagnosis", (85 : ℚ) / 100),
       ("differential_diagnosis_1", (10 : ℚ) / 100),
       ("differential_diagnosis_2", (3 : ℚ) / 100)],
    status := some "disease_complete",
    messages := ["✓ Disease identification completed"] }

/-- Node 4, `root_cause_analysis_node` (src/medagent.py lines 459-486):
no model call; reuse the comprehensive text. -/
def rootCauseAnalysisNode (s : MedState) : MedUpdate :=
  { rootCauseAnalysis :=
      some (s.comprehensiveAnalysis.getD (s.initialAnalysis.getD "")),
    status := some "root_cause_complete",
    messages := ["✓ Root cause analysis completed"] }

/-- Node 5, `medication_recommendation_node` (src/medagent.py lines 488-498):
pass-through. -/
def medicationRecommendationNode (_s : MedState) : MedUpdate :=
  { status := some "medication_pass_through",
    messages := ["✓ Proceeding to combined generation"] }

/-- Node 6, `care_plan_generation_node` (src/medagent.py lines 573-674).
`sumTs` is the wall-clock string `_extract_doctor_summary_section` reads;
`gen` is the outcome of the stage body up to and including the
`generate_text_response` call: `Except.ok r` is the combined response text,
`Except.error e` models any exception raised inside the `try` block, landing
in the stage's `except` handler (the parsing helpers themselves are total:
they catch their own exceptions internally). -/
def carePlanGenerationNode (sumTs : String) (gen : Except String String)
    (_s : MedState) : MedUpdate :=
  match gen with
  | .ok combined =>
      { recommendedMedicines := some (parseCombinedMedications combined),
        twoWeekPlan := some (extractCarePlanSection combined),
        doctorSummary := some (extractDoctorSummarySection sumTs combined),
        status := some "care_plan_complete",
        messages := ["✓ Medications, care plan, and doctor summary generated"] }
  | .error e =>
      { recommendedMedicines := some
          [{ name := "Consult Healthcare Provider", dosage := "As prescribed",
             duration := "As directed", type := "Professional Consultation",
             contraindications :=
               "Please consult with a qualified healthcare provider." }],
        twoWeekPlan := some
          "Please consult with your healthcare provider for a personalized care plan.",
        doctorSummary := some
          "Medical analysis completed. Please review full report for details.",
        error := some e, status := some "failed",
        messages := ["Error in combined generation: " ++ e] }

/-- Node 7, `report_compilation_node` (src/medagent.py lines 676-705):
always compiles a report from whatever fields exist and sets
status `completed`.  (`_compile_final_report` is total, so the node's
`except` arm is unreachable.) -/
def reportCompilationNode (nowIso nowFmt : String) (s : MedState) : MedUpdate :=
  { finalReport := some (compileFinalReport nowIso nowFmt s),
    doctorSummary := some (s.doctorSummary.getD "Doctor summary not available"),
    status := some "completed",
    messages := ["✓ Final report compiled successfully"] }

/-- The ambient inputs of one pipeline run that come from outside the state:
the wall-clock strings and the two model-call results. -/
structure PipelineEnv where
  analysisId : String := "MED_20240101_000000"
  tsIso : String := "2024-01-01T00:00:00"
  sumTs : String := "2024-01-01 00:00:00"
  nowIso : String := "2024-01-01T00:00:00"
  nowFmt : String := "2024-01-01 00:00:00"
  analysisResp : String := ""
  combinedResp : String := ""

/-- The seven stages in the order `build_graph` wires them
(src/medagent.py lines 1147-1179): a straight line with no branching. -/
def pipelineNodes (env : PipelineEnv) : List (MedState → MedUpdate) :=
  [preprocessImageNode env.analysisId env.tsIso,
   initialAnalysisNode env.analysisResp,
   diseaseIdentificationNode,
   rootCauseAnalysisNode,
   medicationRecommendationNode,
   carePlanGenerationNode env.sumTs (Except.ok env.combinedResp),
   reportCompilationNode env.nowIso env.nowFmt]

/-- Merge one stage's partial update into the running state. -/
def pipelineStep (s : MedState) (node : MedState → MedUpdate) : MedState :=
  applyUpdate s (node s)

/-- One full run of the compiled graph (`graph.invoke`,
src/medagent.py line 1220): fold the stages over the initial state,
merging each partial update before the next stage runs. -/
def runPipeline (env : PipelineEnv) (s0 : MedState) : MedState :=
  (pipelineNodes env).foldl pipelineStep s0

/-- The initial state `analyze_medical_image` builds
(src/medagent.py lines 1208-1213). -/
def initialState (img : Option PILImage) (imageType imagePath : String) : MedState :=
  { image := img, imageType := imageType.toLower, imagePath := imagePath,
    messages := ["Analyzing " ++ imageType ++ " image"] }

/-! ## Helper lemmas -/

/-- Folding any list of stages only ever appends to the message log. -/
theorem foldl_messages_ext (l : List (MedState → MedUpdate)) (s : MedState) :
    ∃ t, (l.foldl pipelineStep s).messages = s.messages ++ t := by
  induction l generalizing s with
  | nil => exact ⟨[], by simp⟩
  | cons f fs ih =>
      obtain ⟨t, ht⟩ := ih (pipelineStep s f)
      exact ⟨(f s).messages ++ t, by
        simpa [pipelineStep, applyUpdate, List.append_assoc] using ht⟩

/-! ## Claims -/

/-- **C1.** The merge of a stage's partial update into the running state is
last-write-wins for every field except the message log, which is
concatenated: a field present in the update replaces the stored value
(`u.f <|> s.f` / `u.f.getD s.f`), an absent field leaves it untouched, and
`messages` always becomes the old log with the update's notices appended.
Consequently, over any full pipeline run the initial message log is only
ever extended, never replaced or erased. -/
theorem c1_merge_policy :
    (∀ (s : MedState) (u : MedUpdate),
      (applyUpdate s u).messages = s.messages ++ u.messages ∧
      (applyUpdate s u).image = (u.image <|> s.image) ∧
      (applyUpdate s u).imagePath = u.imagePath.getD s.imagePath ∧
      (applyUpdate s u).imageType = u.imageType.getD s.imageType ∧
      (applyUpdate s u).initialAnalysis = (u.initialAnalysis <|> s.initialAnalysis) ∧
      (applyUpdate s u).comprehensiveAnalysis =
        (u.comprehensiveAnalysis <|> s.comprehensiveAnalysis) ∧
      (applyUpdate s u).diseaseIdentification =
        (u.diseaseIdentification <|> s.diseaseIdentification) ∧
      (applyUpdate s u).rootCauseAnalysis =
        (u.rootCauseAnalysis <|> s.rootCauseAnalysis) ∧
      (applyUpdate s u).recommendedMedicines =
        (u.recommendedMedicines <|> s.recommendedMedicines) ∧
      (applyUpdate s u).twoWeekPlan = (u.twoWeekPlan <|> s.twoWeekPlan) ∧
      (applyUpdate s u).finalReport = (u.finalReport <|> s.finalReport) ∧
      (applyUpdate s u).doctorSummary = (u.doctorSummary <|> s.doctorSummary) ∧
      (applyUpdate s u).analysisId = (u.analysisId <|> s.analysisId) ∧
      (applyUpdate s u).timestamp = (u.timestamp <|> s.timestamp) ∧
      (applyUpdate s u).confidenceScores =
        (u.confidenceScores <|> s.confidenceScores) ∧
      (applyUpdate s u).error = (u.error <|> s.error) ∧
      (applyUpdate s u).status = (u.status <|> s.status)) ∧
    (∀ (env : PipelineEnv) (s0 : MedState),
      ∃ t, (runPipeline env s0).messages = s0.messages ++ t) :=
  ⟨fun _ _ => ⟨rfl, rfl, rfl, rfl, rfl, rfl, rfl, rfl, rfl, rfl, rfl, rfl, rfl,
      rfl, rfl, rfl, rfl⟩,
   fun env s0 => foldl_messages_ext (pipelineNodes env) s0⟩

/-- **C2 counterexample.** Run the pipeline on an initial state with no image:
stage 1 fails (its update carries status `failed` and a non-empty error), yet
the terminal state's status is `completed` — the report-compilation node
overwrites the failure marker — while the stage-1 error is still recorded in
the terminal `error` field.  So a terminal status of `completed` does NOT
hold exactly when no stage failed, refuting the claim. -/
theorem c2_counterexample :
    (preprocessImageNode "MED_20240101_000000" "2024-01-01T00:00:00"
        (initialState none "x-ray" "")).status = some "failed" ∧
    (preprocessImageNode "MED_20240101_000000" "2024-01-01T00:00:00"
        (initialState none "x-ray" "")).error = some "No image provided" ∧
    (runPipeline {} (initialState none "x-ray" "")).status = some "completed" ∧
    (runPipeline {} (initialState none "x-ray" "")).error =
      some "No image provided" :=
  ⟨rfl, rfl, rfl, rfl⟩

/-- **C2 (amended).** For every run of the full pipeline — any initial state
and any model responses — the terminal status is `completed`: the final
report-compilation stage always runs, never throws in this model (every
operation it performs is total), and overwrites whatever status an earlier
stage left, so a non-`completed` terminal status could only arise if that
stage itself threw.  In particular `completed` does not certify that no
stage failed; callers must inspect `error` for that. -/
theorem c2_terminal_status (env : PipelineEnv) (s0 : MedState) :
    (runPipeline env s0).status = some "completed" := rfl

/-- **C4.** Any failure inside the care-plan stage body (modelled as
`Except.error e` reaching the stage's `except` handler) produces a partial
update with the fixed single-entry "Consult Healthcare Provider" medication
list, the fixed generic care-plan string, the fixed generic doctor-summary
string, status `failed` and the error message recorded; and on the success
path the three output fields are likewise always present, so they are never
absent from the update. -/
theorem c4_care_plan_fallback (ts e : String) (s : MedState) :
    (carePlanGenerationNode ts (Except.error e) s).recommendedMedicines =
      some [{ name := "Consult Healthcare Provider", dosage := "As prescribed",
              duration := "As directed", type := "Professional Consultation",
              contraindications :=
                "Please consult with a qualified healthcare provider." }] ∧
    (carePlanGenerationNode ts (Except.error e) s).twoWeekPlan =
      some "Please consult with your healthcare provider for a personalized care plan." ∧
    (carePlanGenerationNode ts (Except.error e) s).doctorSummary =
      some "Medical analysis completed. Please review full report for details." ∧
    (carePlanGenerationNode ts (Except.error e) s).status = some "failed" ∧
    (carePlanGenerationNode ts (Except.error e) s).error = some e ∧
    ∀ r : String,
      (carePlanGenerationNode ts (Except.ok r) s).recommendedMedicines.isSome = true ∧
      (carePlanGenerationNode ts (Except.ok r) s).twoWeekPlan.isSome = true ∧
      (carePlanGenerationNode ts (Except.ok r) s).doctorSummary.isSome = true :=
  ⟨rfl, rfl, rfl, rfl, rfl, fun _ => ⟨rfl, rfl, rfl⟩⟩

/-- **C5.** For every input string the combined-response medication
extraction returns a non-empty list, and whenever the underlying parse of the
medications section yields zero usable records it returns exactly the one
fallback record, whose name is "Consult Healthcare Provider". -/
theorem c5_never_empty (s : String) :
    parseCombinedMedications s ≠ [] ∧
    (parseMedicationResponse (medicationsSection s) = [] →
      parseCombinedMedications s = [parseFallbackMed]) ∧
    parseFallbackMed.name = "Consult Healthcare Provider" := by
  refine ⟨?_, ?_, rfl⟩
  · unfold parseCombinedMedications
    split
    · simp
    · assumption
  · intro h
    unfold parseCombinedMedications
    simp [h]

/-- **C5 witness**: a response with no extractable `Name:` line yields exactly
the fallback record. -/
theorem c5_witness : parseCombinedMedications "hello" = [parseFallbackMed] :=
  (c5_never_empty "hello").2.1 (by decide)

/-- **C7.** Every record returned by `_parse_medication_response` has a
usable name (non-empty and not `n/a`/`none` after lowercasing) — so records
without a usable name are excluded — and every scanned record that does have
a usable name appears in the output with each absent optional field filled by
its fixed default string. -/
theorem c7_defaults_and_filter (s : String) :
    (∀ m ∈ parseMedicationResponse s,
        m.name ≠ "" ∧ pyLower m.name ≠ "n/a" ∧ pyLower m.name ≠ "none") ∧
    (∀ p ∈ scanMedLines s, usableName p.name = true →
        ({ name := p.name,
           dosage := p.dosage.getD "As prescribed by physician",
           duration := p.duration.getD "As directed",
           type := p.type.getD "Medication",
           contraindications :=
             p.contraindications.getD "Consult healthcare provider" } : Medication)
          ∈ parseMedicationResponse s) := by
  constructor
  · intro m hm
    simp only [parseMedicationResponse, List.mem_map, List.mem_filter] at hm
    obtain ⟨p, ⟨_, hu⟩, rfl⟩ := hm
    simp only [usableName, Bool.and_eq_true, bne_iff_ne, ne_eq] at hu
    exact ⟨hu.1.1, hu.1.2, hu.2⟩
  · intro p hp hu
    simp only [parseMedicationResponse, List.mem_map]
    exact ⟨p, List.mem_filter.mpr ⟨hp, hu⟩, rfl⟩

/-- **C7 witness**: a medication entry missing its `Duration:` line comes back
with the fixed default duration "As directed" (and default type and
contraindications). -/
theorem c7_witness :
    ({ name := "Aspirin", dosage := "100mg", duration := "As directed",
       type := "Medication",
       contraindications := "Consult healthcare provider" } : Medication)
      ∈ parseMedicationResponse "Name: Aspirin\nDosage: 100mg" :=
  (c7_defaults_and_filter "Name: Aspirin\nDosage: 100mg").2
    ⟨"Aspirin", some "100mg", none, none, none⟩ (by decide) (by decide)

/-- **C8 counterexample.** A combined response lacking the
`=== MEDICATIONS ===` marker does NOT degrade the medications extraction to
the fixed default: the parser falls back to scanning the whole response, so a
bare `Name: Aspirin` line (no markers at all) produces a real Aspirin record,
not the fallback record. -/
theorem c8_counterexample :
    pyContains "Name: Aspirin" "=== MEDICATIONS ===" = false ∧
    parseCombinedMedications "Name: Aspirin" =
      [{ name := "Aspirin", dosage := "As prescribed by physician",
         duration := "As directed", type := "Medication",
         contraindications := "Consult healthcare provider" }] ∧
    parseCombinedMedications "Name: Aspirin" ≠ [parseFallbackMed] :=
  ⟨by decide, by decide, by decide⟩

/-- **C8 (amended).** When a section marker is missing no extraction raises
and the other sections are unaffected; the care-plan and doctor-summary
extractions degrade to their fixed default strings, while the medications
extraction first re-parses the entire response and substitutes the single
fallback record only when that parse yields zero records. -/
theorem c8_missing_marker (s ts : String) :
    (pyContains s "=== CARE PLAN ===" = false →
      extractCarePlanSection s =
        "Please consult with your healthcare provider for a personalized care plan.") ∧
    (pyContains s "=== DOCTOR SUMMARY ===" = false →
      extractDoctorSummarySection ts s =
        "Medical analysis completed. Please review full report for details.") ∧
    (pyContains s "=== MEDICATIONS ===" = false →
      parseCombinedMedications s =
        if parseMedicationResponse s = [] then [parseFallbackMed]
        else parseMedicationResponse s) := by
  refine ⟨fun h => ?_, fun h => ?_, fun h => ?_⟩
  · simp [extractCarePlanSection, h]
  · simp [extractDoctorSummarySection, h]
  · simp [parseCombinedMedications, medicationsSection, h]

/-- **C8 witness**: on a response with no markers at all, the care-plan and
doctor-summary sections are the fixed defaults and the medications list is
the single fallback record. -/
theorem c8_witness :
    extractCarePlanSection "no markers here" =
      "Please consult with your healthcare provider for a personalized care plan." ∧
    extractDoctorSummarySection "T" "no markers here" =
      "Medical analysis completed. Please review full report for details." ∧
    parseCombinedMedications "no markers here" = [parseFallbackMed] := by
  obtain ⟨h1, h2, h3⟩ := c8_missing_marker "no markers here" "T"
  exact ⟨h1 (by decide), h2 (by decide), by rw [h3 (by decide)]; decide⟩

/-- Each canned simulated response is a non-empty string. -/
theorem getSimulatedResponse_ne_empty (p : String) :
    getSimulatedResponse p ≠ "" := by
  unfold getSimulatedResponse
  repeat' split
  all_goals decide

/-- **C9 counterexample.** The text-only operation does NOT keyword-sniff:
with no API key configured, a care-plan prompt gets the fixed
"Simulated medication recommendations" string, not the sample plan block the
keyword sniffer would select for that prompt. -/
theorem c9_counterexample :
    generateTextResponse true (Except.ok "")
        "Generate a care plan for management" =
      "Simulated medication recommendations - Please consult with a healthcare provider." ∧
    getSimulatedResponse "Generate a care plan for management" =
      simulateCarePlan ∧
    simulateCarePlan ≠
      "Simulated medication recommendations - Please consult with a healthcare provider." :=
  ⟨rfl, by decide, by decide⟩

/-- **C9 (amended).** Both Model Client operations return a non-empty string
on every path.  On failure or with no API key, the image-analysis operation
substitutes the keyword-sniffed canned string; the text-only operation
instead substitutes one of three fixed strings (simulation, API error, empty
response) that do not depend on the prompt. -/
theorem c9_model_client (sim : Bool) (outcome : Except String String)
    (prompt e : String) :
    analyzeImage sim outcome prompt ≠ "" ∧
    generateTextResponse sim outcome prompt ≠ "" ∧
    analyzeImage true outcome prompt = getSimulatedResponse prompt ∧
    analyzeImage false (Except.error e) prompt = getSimulatedResponse prompt ∧
    analyzeImage false (Except.ok "") prompt = getSimulatedResponse prompt ∧
    generateTextResponse true outcome prompt =
      "Simulated medication recommendations - Please consult with a healthcare provider." ∧
    generateTextResponse false (Except.error e) prompt =
      "Unable to generate recommendations due to API error." ∧
    generateTextResponse false (Except.ok "") prompt =
      "Unable to generate recommendations at this time." := by
  refine ⟨?_, ?_, rfl, rfl, rfl, rfl, rfl, rfl⟩
  · cases sim with
    | true => simpa [analyzeImage] using getSimulatedResponse_ne_empty prompt
    | false =>
        cases outcome with
        | error e2 => simpa [analyzeImage] using getSimulatedResponse_ne_empty prompt
        | ok t =>
            by_cases ht : t = "" <;>
              simp [analyzeImage, ht, getSimulatedResponse_ne_empty prompt]
  · cases sim with
    | true => simp [generateTextResponse]
    | false =>
        cases outcome with
        | error e2 => simp [generateTextResponse]
        | ok t =>
            by_cases ht : t = "" <;> simp [generateTextResponse, ht]

/-- **C9 witness**: concrete instances of the amended client contract. -/
theorem c9_witness :
    analyzeImage true (Except.ok "") "x" ≠ "" ∧
    generateTextResponse false (Except.error "boom") "x" =
      "Unable to generate recommendations due to API error." :=
  ⟨(c9_model_client true (Except.ok "") "x" "e").1,
   (c9_model_client false (Except.error "boom") "x" "boom").2.2.2.2.2.2.1⟩

/-- `String.append` acts as list append on the underlying characters. -/
theorem strData_append (a b : String) : (a ++ b).data = a.data ++ b.data := by
  cases a; cases b; rfl

/-- Left cancellation for string append. -/
theorem strAppend_cancel_left (a b c : String) (h : a ++ b = a ++ c) : b = c := by
  have h2 := congrArg String.data h
  rw [strData_append, strData_append] at h2
  have h3 := List.append_cancel_left h2
  cases b; cases c
  exact congrArg String.mk h3

/-- **C3 counterexample.** Report compilation is NOT a pure function of the
terminal state: `_compile_final_report` embeds a fresh `datetime.now()` read
in its footer, so compiling the same state at two different wall-clock
instants yields different report text. -/
theorem c3_counterexample :
    compileFinalReport "2024-01-01T00:00:00" "2024-01-01 00:00:00"
        ({} : MedState) ≠
      compileFinalReport "2024-01-01T00:00:00" "2024-01-01 00:00:01"
        ({} : MedState) := by
  intro h
  have h2 : reportStem "2024-01-01T00:00:00" ({} : MedState) ++
      ("2024-01-01 00:00:00" ++ "\n") =
      reportStem "2024-01-01T00:00:00" ({} : MedState) ++
      ("2024-01-01 00:00:01" ++ "\n") := h
  have h3 := strAppend_cancel_left _ _ _ h2
  exact absurd h3 (by decide)

/-- **C3 (amended).** Report compilation makes no Model Client call and is a
deterministic function of the terminal state *and the wall-clock reads*:
with the two clock strings fixed, compiling twice from the same state yields
byte-identical text, and the clock enters the output only through the
`timestamp` fallback and the footer, which ends the report with the fresh
`datetime.now()` read. -/
theorem c3_compile_deterministic (s : MedState) (i1 f1 i2 f2 : String)
    (hi : i1 = i2) (hf : f1 = f2) :
    compileFinalReport i1 f1 s = compileFinalReport i2 f2 s ∧
    compileFinalReport i1 f1 s = reportStem i1 s ++ (f1 ++ "\n") := by
  subst hi; subst hf; exact ⟨rfl, rfl⟩

/-- **C3 witness**: two compilations from the same state at the same clock
strings agree byte for byte. -/
theorem c3_witness :
    compileFinalReport "2024-01-01T00:00:00" "2024-01-01 00:00:00"
        ({ imageType := "x-ray" } : MedState) =
      compileFinalReport "2024-01-01T00:00:00" "2024-01-01 00:00:00"
        ({ imageType := "x-ray" } : MedState) :=
  (c3_compile_deterministic { imageType := "x-ray" } _ _ _ _ rfl rfl).1

/-- `roundAspect` returns either the floor or the ceiling of its argument,
clamped below by 1. -/
theorem roundAspect_cases (q : ℚ) (key : ℤ → ℚ) :
    roundAspect q key = max ⌊q⌋ 1 ∨ roundAspect q key = max ⌈q⌉ 1 := by
  unfold roundAspect
  split
  · exact Or.inl rfl
  · exact Or.inr rfl

/-- `roundAspect` never returns less than 1. -/
theorem one_le_roundAspect (q : ℚ) (key : ℤ → ℚ) : 1 ≤ roundAspect q key := by
  rcases roundAspect_cases q key with h | h <;> rw [h] <;> exact le_max_right _ _

/-- `roundAspect` stays within the 512 bound when its argument does. -/
theorem roundAspect_le (q : ℚ) (key : ℤ → ℚ) (h512 : q ≤ 512) :
    roundAspect q key ≤ 512 := by
  have hf : ⌊q⌋ ≤ 512 := by
    have h1 : (⌊q⌋ : ℚ) ≤ q := Int.floor_le q
    exact_mod_cast h1.trans h512
  have hc : ⌈q⌉ ≤ 512 := Int.ceil_le.mpr (by exact_mod_cast h512)
  rcases roundAspect_cases q key with h | h <;> rw [h]
  · exact max_le hf (by norm_num)
  · exact max_le hc (by norm_num)

/-- `roundAspect` is within 1 of its (positive) argument. -/
theorem abs_roundAspect_sub (q : ℚ) (key : ℤ → ℚ) (hq : 0 < q) :
    |(roundAspect q key : ℚ) - q| ≤ 1 := by
  rcases roundAspect_cases q key with h | h <;> rw [h]
  · rcases le_or_lt 1 ⌊q⌋ with hf | hf
    · rw [max_eq_left hf]
      have h1 : (⌊q⌋ : ℚ) ≤ q := Int.floor_le q
      have h2 : q - 1 < (⌊q⌋ : ℚ) := Int.sub_one_lt_floor q
      rw [abs_le]
      constructor <;> linarith
    · have hf0 : 0 ≤ ⌊q⌋ := Int.floor_nonneg.mpr hq.le
      have hf00 : ⌊q⌋ = 0 := by omega
      have hlt : q < 1 := by
        have := Int.lt_floor_add_one q
        rw [hf00] at this
        simpa using this
      rw [max_eq_right (by omega)]
      rw [abs_le]
      push_cast
      constructor <;> linarith
  · have hc : 1 ≤ ⌈q⌉ := Int.ceil_pos.mpr hq
    rw [max_eq_left hc]
    have h1 : q ≤ (⌈q⌉ : ℚ) := Int.le_ceil q
    have h2 : (⌈q⌉ : ℚ) < q + 1 := Int.ceil_lt_add_one q
    rw [abs_le]
    constructor <;> linarith

/-- Clearing the denominator in the rounding bound. -/
theorem cross_bound {r a : ℤ} {b : ℕ} (hb : 0 < b)
    (hr : |(r : ℚ) - (a : ℚ) / (b : ℚ)| ≤ 1) : |r * b - a| ≤ (b : ℤ) := by
  have hbq : (0 : ℚ) < (b : ℚ) := by exact_mod_cast hb
  have h2 : |(r : ℚ) * b - a| ≤ (b : ℚ) := by
    calc |(r : ℚ) * b - a|
        = |((r : ℚ) - a / b) * b| := by
          rw [sub_mul, div_mul_cancel₀ _ (ne_of_gt hbq)]
      _ = |(r : ℚ) - a / b| * |(b : ℚ)| := abs_mul _ _
      _ = |(r : ℚ) - a / b| * b := by rw [abs_of_nonneg hbq.le]
      _ ≤ 1 * b := mul_le_mul_of_nonneg_right hr hbq.le
      _ = b := one_mul _
  exact_mod_cast h2

/-- Bounds for the portrait branch of `thumbnail512` (width scaled, height
pinned to 512). -/
theorem resize_bound_A {w h : ℕ} (hw : 1 ≤ w) (hh : 1 ≤ h)
    (hba : (w : ℚ) / (h : ℚ) ≤ 1) (key : ℤ → ℚ) :
    (roundAspect (512 * ((w : ℚ) / (h : ℚ))) key).toNat ≤ 512 ∧
    1 ≤ (roundAspect (512 * ((w : ℚ) / (h : ℚ))) key).toNat ∧
    (((roundAspect (512 * ((w : ℚ) / (h : ℚ))) key).toNat : ℤ) * h -
        512 * w).natAbs ≤ max w h := by
  set q : ℚ := 512 * ((w : ℚ) / (h : ℚ)) with hqdef
  have hwq : (0 : ℚ) < (w : ℚ) := by exact_mod_cast Nat.lt_of_lt_of_le Nat.zero_lt_one hw
  have hhq : (0 : ℚ) < (h : ℚ) := by exact_mod_cast Nat.lt_of_lt_of_le Nat.zero_lt_one hh
  have hq0 : 0 < q := by rw [hqdef]; positivity
  have hq512 : q ≤ 512 := by
    rw [hqdef]
    calc 512 * ((w : ℚ) / (h : ℚ)) ≤ 512 * 1 :=
          mul_le_mul_of_nonneg_left hba (by norm_num)
      _ = 512 := by norm_num
  have hr1 : 1 ≤ roundAspect q key := one_le_roundAspect q key
  have hr512 : roundAspect q key ≤ 512 := roundAspect_le q key hq512
  have htn : ((roundAspect q key).toNat : ℤ) = roundAspect q key :=
    Int.toNat_of_nonneg (by omega)
  refine ⟨by omega, by omega, ?_⟩
  have habs : |(roundAspect q key : ℚ) - q| ≤ 1 := abs_roundAspect_sub q key hq0
  have hq_eq : q = ((512 * w : ℤ) : ℚ) / (h : ℚ) := by rw [hqdef]; push_cast; ring
  have h1 : |roundAspect q key * (h : ℤ) - 512 * w| ≤ (h : ℤ) := by
    apply cross_bound (by omega : 0 < h)
    rw [← hq_eq]
    exact habs
  have h4 : ((roundAspect q key * (h : ℤ) - 512 * w).natAbs : ℤ) ≤ (h : ℤ) := by
    rw [← Int.abs_eq_natAbs]
    exact h1
  have h5 : h ≤ max w h := le_max_right w h
  rw [htn]
  omega

/-- Bounds for the landscape branch of `thumbnail512` (height scaled, width
pinned to 512). -/
theorem resize_bound_B {w h : ℕ} (hw : 1 ≤ w) (hh : 1 ≤ h)
    (hba : 1 ≤ (w : ℚ) / (h : ℚ)) (key : ℤ → ℚ) :
    (roundAspect (512 / ((w : ℚ) / (h : ℚ))) key).toNat ≤ 512 ∧
    1 ≤ (roundAspect (512 / ((w : ℚ) / (h : ℚ))) key).toNat ∧
    ((512 : ℤ) * h -
        ((roundAspect (512 / ((w : ℚ) / (h : ℚ))) key).toNat : ℤ) * w).natAbs ≤
      max w h := by
  set q : ℚ := 512 / ((w : ℚ) / (h : ℚ)) with hqdef
  have hwq : (0 : ℚ) < (w : ℚ) := by exact_mod_cast Nat.lt_of_lt_of_le Nat.zero_lt_one hw
  have hhq : (0 : ℚ) < (h : ℚ) := by exact_mod_cast Nat.lt_of_lt_of_le Nat.zero_lt_one hh
  have haspect : (0 : ℚ) < (w : ℚ) / (h : ℚ) := div_pos hwq hhq
  have hq0 : 0 < q := by rw [hqdef]; positivity
  have hq512 : q ≤ 512 := by
    rw [hqdef]
    exact div_le_self (by norm_num) hba
  have hr1 : 1 ≤ roundAspect q key := one_le_roundAspect q key
  have hr512 : roundAspect q key ≤ 512 := roundAspect_le q key hq512
  have htn : ((roundAspect q key).toNat : ℤ) = roundAspect q key :=
    Int.toNat_of_nonneg (by omega)
  refine ⟨by omega, by omega, ?_⟩
  have habs : |(roundAspect q key : ℚ) - q| ≤ 1 := abs_roundAspect_sub q key hq0
  have hq_eq : q = ((512 * h : ℤ) : ℚ) / (w : ℚ) := by
    rw [hqdef, div_div_eq_mul_div]
    push_cast
    ring
  have h1 : |roundAspect q key * (w : ℤ) - 512 * h| ≤ (w : ℤ) := by
    apply cross_bound (by omega : 0 < w)
    rw [← hq_eq]
    exact habs
  have h4 : ((roundAspect q key * (w : ℤ) - 512 * h).natAbs : ℤ) ≤ (w : ℤ) := by
    rw [← Int.abs_eq_natAbs]
    exact h1
  have h5 : w ≤ max w h := le_max_left w h
  rw [htn]
  omega

/-- Full specification of the modelled `thumbnail((512, 512))`: on a
positive-size image it succeeds, keeps the mode, fits both dimensions in
`[1, 512]`, and preserves the aspect ratio up to the integer rounding
inherent in pixel dimensions (`|w' * h - h' * w| ≤ max w h`, i.e. the scaled
side is within one pixel of the exact proportional value). -/
theorem thumbnail512_spec (img : PILImage) (hw : 1 ≤ img.width)
    (hh : 1 ≤ img.height) :
    ∃ out, thumbnail512 img = some out ∧ out.mode = img.mode ∧
      out.width ≤ 512 ∧ out.height ≤ 512 ∧ 1 ≤ out.width ∧ 1 ≤ out.height ∧
      ((out.width : ℤ) * img.height - (out.height : ℤ) * img.width).natAbs ≤
        max img.width img.height := by
  obtain ⟨mode, w, h⟩ := img
  simp only at hw hh ⊢
  by_cases hfit : w ≤ 512 ∧ h ≤ 512
  · refine ⟨⟨mode, w, h⟩, ?_, rfl, hfit.1, hfit.2, hw, hh, ?_⟩
    · simp only [thumbnail512]
      rw [if_pos hfit]
    · have hz : (w : ℤ) * h - (h : ℤ) * w = 0 := by ring
      rw [hz]
      simp
  · have hh0 : ¬(h = 0) := by omega
    by_cases hbr : (1 : ℚ) ≥ (w : ℚ) / (h : ℚ)
    · obtain ⟨hle, hge, hcross⟩ := resize_bound_A hw hh hbr
        (fun n => |(w : ℚ) / (h : ℚ) - (n : ℚ) / 512|)
      refine ⟨⟨mode,
          (roundAspect (512 * ((w : ℚ) / (h : ℚ)))
            (fun n => |(w : ℚ) / (h : ℚ) - (n : ℚ) / 512|)).toNat, 512⟩,
        ?_, rfl, hle, le_refl _, hge, by norm_num, hcross⟩
      simp only [thumbnail512]
      rw [if_neg hfit, if_neg hh0, if_pos hbr]
    · have hbr' : 1 ≤ (w : ℚ) / (h : ℚ) := le_of_lt (lt_of_not_ge hbr)
      obtain ⟨hle, hge, hcross⟩ := resize_bound_B hw hh hbr'
        (fun n => if n = 0 then 0 else |(w : ℚ) / (h : ℚ) - 512 / (n : ℚ)|)
      refine ⟨⟨mode, 512,
          (roundAspect (512 / ((w : ℚ) / (h : ℚ)))
            (fun n => if n = 0 then 0 else
              |(w : ℚ) / (h : ℚ) - 512 / (n : ℚ)|)).toNat⟩,
        ?_, rfl, le_refl _, hle, by norm_num, hge, hcross⟩
      simp only [thumbnail512]
      rw [if_neg hfit, if_neg hh0, if_neg hbr]

/-- **C6.** Stage 1: with no image, the stage fails with the non-empty error
"No image provided" and sets none of the analysis fields; with an image of
positive size, whatever its input color mode, the returned image is
three-channel (`RGB`), both dimensions are at most 512 with the aspect ratio
preserved up to pixel rounding, and the status is `preprocessing_complete`. -/
theorem c6_preprocess (aid ts : String) (s : MedState) :
    (s.image = none →
      (preprocessImageNode aid ts s).status = some "failed" ∧
      (preprocessImageNode aid ts s).error = some "No image provided" ∧
      "No image provided" ≠ "" ∧
      (preprocessImageNode aid ts s).image = none ∧
      (preprocessImageNode aid ts s).initialAnalysis = none ∧
      (preprocessImageNode aid ts s).comprehensiveAnalysis = none ∧
      (preprocessImageNode aid ts s).diseaseIdentification = none ∧
      (preprocessImageNode aid ts s).rootCauseAnalysis = none ∧
      (preprocessImageNode aid ts s).recommendedMedicines = none ∧
      (preprocessImageNode aid ts s).twoWeekPlan = none ∧
      (preprocessImageNode aid ts s).doctorSummary = none ∧
      (preprocessImageNode aid ts s).finalReport = none ∧
      (preprocessImageNode aid ts s).confidenceScores = none ∧
      (preprocessImageNode aid ts s).analysisId = none ∧
      (preprocessImageNode aid ts s).timestamp = none) ∧
    (∀ img, s.image = some img → 1 ≤ img.width → 1 ≤ img.height →
      ∃ out, (preprocessImageNode aid ts s).image = some out ∧
        out.mode = "RGB" ∧ out.width ≤ 512 ∧ out.height ≤ 512 ∧
        ((out.width : ℤ) * img.height - (out.height : ℤ) * img.width).natAbs ≤
          max img.width img.height ∧
        (preprocessImageNode aid ts s).status = some "preprocessing_complete") := by
  constructor
  · intro h
    refine ⟨?_, ?_, by decide, ?_, ?_, ?_, ?_, ?_, ?_, ?_, ?_, ?_, ?_, ?_, ?_⟩ <;>
      simp [preprocessImageNode, h]
  · intro img h hw hh
    set img1 := if img.mode ≠ "RGB" then { img with mode := "RGB" } else img
      with himg1
    have h1w : img1.width = img.width := by rw [himg1]; split <;> rfl
    have h1h : img1.height = img.height := by rw [himg1]; split <;> rfl
    have h1m : img1.mode = "RGB" := by
      rw [himg1]
      split
      · rfl
      · next hcond => exact not_not.mp hcond
    obtain ⟨out, hthumb, hmode, hle1, hle2, _, _, hcross⟩ :=
      thumbnail512_spec img1 (by rw [h1w]; exact hw) (by rw [h1h]; exact hh)
    have hnode : preprocessImageNode aid ts s =
        { image := some out, analysisId := some aid, timestamp := some ts,
          status := some "preprocessing_complete",
          messages := ["✓ Image preprocessed: " ++ s.imageType ++ " | Size: (" ++
            toString out.width ++ ", " ++ toString out.height ++ ")"] } := by
      simp only [preprocessImageNode, h]
      rw [← himg1, hthumb]
    rw [h1w, h1h] at hcross
    exact ⟨out, by rw [hnode], hmode.trans h1m, hle1, hle2, hcross, by rw [hnode]⟩

/-- **C6 witness**: the failure case on a state without an image, and the
success case on a 1024×768 monochrome image, which comes back RGB within the
512 bound with its 4:3 aspect ratio intact. -/
theorem c6_witness :
    (preprocessImageNode "MED_1" "T"
        { image := none, imageType := "x-ray" }).status = some "failed" ∧
    (∃ out, (preprocessImageNode "MED_1" "T"
          { image := some ⟨"L", 1024, 768⟩, imageType := "x-ray" }).image =
            some out ∧
      out.mode = "RGB" ∧ out.width ≤ 512 ∧ out.height ≤ 512 ∧
      ((out.width : ℤ) * 768 - (out.height : ℤ) * 1024).natAbs ≤ max 1024 768 ∧
      (preprocessImageNode "MED_1" "T"
          { image := some ⟨"L", 1024, 768⟩, imageType := "x-ray" }).status =
        some "preprocessing_complete") :=
  ⟨((c6_preprocess "MED_1" "T" _).1 rfl).1,
   (c6_preprocess "MED_1" "T" _).2 ⟨"L", 1024, 768⟩ rfl (by norm_num)
     (by norm_num)⟩

/-- **C10.** Preprocessing never enlarges an image: when both input
dimensions are already at most 512, stage 1 leaves the dimensions exactly
unchanged (the thumbnail call returns early without resizing). -/
theorem c10_no_upscale (aid ts : String) (s : MedState) (img : PILImage)
    (hs : s.image = some img) (hw : img.width ≤ 512) (hh : img.height ≤ 512) :
    ∃ out, (preprocessImageNode aid ts s).image = some out ∧
      out.width = img.width ∧ out.height = img.height := by
  set img1 := if img.mode ≠ "RGB" then { img with mode := "RGB" } else img
    with himg1
  have h1w : img1.width = img.width := by rw [himg1]; split <;> rfl
  have h1h : img1.height = img.height := by rw [himg1]; split <;> rfl
  have hthumb : thumbnail512 img1 = some img1 := by
    unfold thumbnail512
    rw [if_pos ⟨by rw [h1w]; exact hw, by rw [h1h]; exact hh⟩]
  have hnode : preprocessImageNode aid ts s =
      { image := some img1, analysisId := some aid, timestamp := some ts,
        status := some "preprocessing_complete",
        messages := ["✓ Image preprocessed: " ++ s.imageType ++ " | Size: (" ++
          toString img1.width ++ ", " ++ toString img1.height ++ ")"] } := by
    simp only [preprocessImageNode, hs]
    rw [← himg1, hthumb]
  exact ⟨img1, by rw [hnode], h1w, h1h⟩

/-- **C10 witness**: a 300×200 RGBA image keeps its exact dimensions. -/
theorem c10_witness :
    ∃ out, (preprocessImageNode "MED_1" "T"
        { image := some ⟨"RGBA", 300, 200⟩ }).image = some out ∧
      out.width = 300 ∧ out.height = 200 :=
  c10_no_upscale "MED_1" "T" _ ⟨"RGBA", 300, 200⟩ rfl (by norm_num) (by norm_num)

end MedAgent
